import Mathlib

/-!
Verification development for the communication-board backend
(`fastapi_backend`): a shallow embedding, in Lean 4, of the
ownership-scoped content store (Profile / Category / ImageWord rows plus a
blob store for image assets), the asset-lifecycle coordination of its
service layer, the seeding cascade run at registration and first login,
the resilient text-to-speech client, and the password-reset entry point.

Relational state is modelled as explicit lists of rows.  A SQLAlchemy
session is modelled as a pair of database snapshots (`committed`, `cur`):
repository writes (`add` + `flush`) mutate `cur`, `commit` copies `cur`
into `committed`, `rollback` copies `committed` back into `cur`.  The blob
store is a list of keys, plus an event trace recording uploads, relational
writes, commits, rollbacks and blob-delete invocations in program order.
Failures of external effects (blob upload, relational flush, commit, the
upstream HTTP endpoint) are supplied as explicit outcome parameters, so
each service function is a pure function of its inputs and the chosen
outcomes, mirroring the Python control flow branch by branch.
-/

/-- A row of the `users` table (id modelled as `Nat` in place of a UUID). -/
structure UserRow where
  id : Nat
  email : String
deriving DecidableEq, Repr

/-- A row of the `profiles` table. -/
structure ProfileRow where
  id : Nat
  user_id : Nat
  name : String
deriving DecidableEq, Repr

/-- A row of the `categories` table; `image_url` is a nullable text column. -/
structure CategoryRow where
  id : Nat
  profile_id : Nat
  name : String
  image_url : Option String
deriving DecidableEq, Repr

/-- A row of the `image_words` table; `image_url` is a nullable text column. -/
structure ImageWordRow where
  id : Nat
  category_id : Nat
  word : String
  image_url : Option String
deriving DecidableEq, Repr

/-- The relational store. -/
structure DB where
  users : List UserRow
  profiles : List ProfileRow
  categories : List CategoryRow
  words : List ImageWordRow
deriving DecidableEq, Repr

/-- Observable effects, recorded in program order. -/
inductive Ev where
  | upload (key : String)
  | dbWrite
  | commit
  | rollback
  | blobDelete (key : String)
deriving DecidableEq, Repr

/-- Domain errors (HTTP status classes raised by the services). -/
inductive Err where
  | notFound
  | badRequest
  | forbidden
  | internal
  | unavailable
deriving DecidableEq, Repr

/-- Whole-system state: committed database, session view of the database,
blob-store contents, effect trace, and the next autoincrement row id. -/
structure St where
  committed : DB
  cur : DB
  blob : List String
  trace : List Ev
  nextId : Nat
deriving DecidableEq, Repr

/-- `storage_service.upload` succeeding with key `k`: the object now exists. -/
def St.uploadKey (st : St) (k : String) : St :=
  { st with blob := k :: st.blob, trace := st.trace ++ [Ev.upload k] }

/-- `storage_service.delete k` succeeding: the invocation is traced and the
object (if present) is removed. -/
def St.blobDel (st : St) (k : String) : St :=
  { st with blob := st.blob.erase k, trace := st.trace ++ [Ev.blobDelete k] }

/-- `storage_service.delete k` whose backend call may fail (`ok = false`):
the invocation is always traced; the object is removed only on success. -/
def St.blobDelTry (st : St) (k : String) (ok : Bool) : St :=
  { st with blob := if ok then st.blob.erase k else st.blob,
            trace := st.trace ++ [Ev.blobDelete k] }

/-- `session.commit()`. -/
def St.commitTx (st : St) : St :=
  { st with committed := st.cur, trace := st.trace ++ [Ev.commit] }

/-- `session.rollback()`. -/
def St.rollbackTx (st : St) : St :=
  { st with cur := st.committed, trace := st.trace ++ [Ev.rollback] }

/-- `CategoryRepository.find_category_by_id`: select the category joined to
the requesting user's profiles; `None` both when the row is absent and when
it belongs to another user. -/
def CategoryRepository.find_category_by_id (db : DB) (user cid : Nat) :
    Option CategoryRow :=
  db.categories.find? fun c =>
    c.id == cid && db.profiles.any fun p => p.id == c.profile_id && p.user_id == user

/-- `ImageWordRepository.find_image_word_by_id`: select the image word joined
through its category to the requesting user's profiles. -/
def ImageWordRepository.find_image_word_by_id (db : DB) (user wid : Nat) :
    Option ImageWordRow :=
  db.words.find? fun w =>
    w.id == wid && db.categories.any fun c =>
      c.id == w.category_id && db.profiles.any fun p =>
        p.id == c.profile_id && p.user_id == user

/-- The ownership pre-check of `CategoryRepository.save`: the declared parent
profile must belong to the requesting user. -/
def profileOwned (db : DB) (user pid : Nat) : Bool :=
  db.profiles.any fun p => p.id == pid && p.user_id == user

/-- The ownership pre-check of `ImageWordRepository.save` (create path): the
declared parent category must be reachable from the requesting user. -/
def categoryOwned (db : DB) (user cid : Nat) : Bool :=
  db.categories.any fun c => c.id == cid && profileOwned db user c.profile_id

/-- `ProfileRepository.find_all_by_user` restricted to the rows themselves. -/
def profilesOfUser (db : DB) (user : Nat) : List ProfileRow :=
  db.profiles.filter fun p => p.user_id == user

/-- A category row with id `cid` is reachable from `user` through the
ownership chain (the semantic reading of the repository join). -/
def CategoryReachable (db : DB) (user cid : Nat) : Prop :=
  ∃ c ∈ db.categories, c.id = cid ∧
    ∃ p ∈ db.profiles, p.id = c.profile_id ∧ p.user_id = user

/-- An image-word row with id `wid` is reachable from `user` through the
ownership chain. -/
def ImageWordReachable (db : DB) (user wid : Nat) : Prop :=
  ∃ w ∈ db.words, w.id = wid ∧
    ∃ c ∈ db.categories, c.id = w.category_id ∧
      ∃ p ∈ db.profiles, p.id = c.profile_id ∧ p.user_id = user

instance (db : DB) (user cid : Nat) : Decidable (CategoryReachable db user cid) :=
  decidable_of_iff
    (∃ c ∈ db.categories, c.id = cid ∧
      ∃ p ∈ db.profiles, p.id = c.profile_id ∧ p.user_id = user) Iff.rfl

instance (db : DB) (user wid : Nat) : Decidable (ImageWordReachable db user wid) :=
  decidable_of_iff
    (∃ w ∈ db.words, w.id = wid ∧
      ∃ c ∈ db.categories, c.id = w.category_id ∧
        ∃ p ∈ db.profiles, p.id = c.profile_id ∧ p.user_id = user) Iff.rfl

/-- `CategoryService.create_category`: upload the image, insert the row
(after `CategoryRepository.save`'s ownership check), commit.  `uploadR` is
the outcome of the blob upload (`none` = StorageError raised), `dbOk` models
the relational flush succeeding and `commitOk` the commit succeeding.  Every
failure path mirrors the Python `except` block: a compensating blob delete
of the uploaded key is invoked (the local `image_url` is still `None` when
the upload itself failed, so nothing is deleted there), then rollback, then
an error.  The delete's own backend outcome is `compOk`: both backends
catch backend errors and return `False` — which the service ignores — so a
failed compensation leaves the object in place. -/
def CategoryService.create_category (user pid : Nat) (name : String)
    (uploadR : Option String) (dbOk commitOk compOk : Bool) (st : St) :
    St × Except Err CategoryRow :=
  match uploadR with
  | none => (st.rollbackTx, Except.error Err.internal)
  | some key =>
    let st1 := st.uploadKey key
    if profileOwned st1.cur user pid && dbOk then
      let row : CategoryRow :=
        { id := st1.nextId, profile_id := pid, name := name, image_url := some key }
      let st2 : St :=
        { st1 with
          cur := { st1.cur with categories := st1.cur.categories ++ [row] },
          trace := st1.trace ++ [Ev.dbWrite],
          nextId := st1.nextId + 1 }
      if commitOk then
        (st2.commitTx, Except.ok row)
      else
        ((st2.blobDelTry key compOk).rollbackTx, Except.error Err.internal)
    else
      ((st1.blobDelTry key compOk).rollbackTx, Except.error Err.internal)

/-- `ImageWordService.save`: upload the image, insert the row (after
`ImageWordRepository.save`'s category-ownership check), commit.  An
ownership failure raises `NoResultFound`, which the service maps to 404
after the compensating delete and rollback; other failures map to 500.
`compOk` is the compensating delete's backend outcome (its `False` return
is ignored by the service, leaving the object on failure). -/
def ImageWordService.save (user cid : Nat) (word : String)
    (uploadR : Option String) (dbOk commitOk compOk : Bool) (st : St) :
    St × Except Err ImageWordRow :=
  match uploadR with
  | none => (st.rollbackTx, Except.error Err.internal)
  | some key =>
    let st1 := st.uploadKey key
    if categoryOwned st1.cur user cid then
      if dbOk then
        let row : ImageWordRow :=
          { id := st1.nextId, category_id := cid, word := word, image_url := some key }
        let st2 : St :=
          { st1 with
            cur := { st1.cur with words := st1.cur.words ++ [row] },
            trace := st1.trace ++ [Ev.dbWrite],
            nextId := st1.nextId + 1 }
        if commitOk then
          (st2.commitTx, Except.ok row)
        else
          ((st2.blobDelTry key compOk).rollbackTx, Except.error Err.internal)
      else
        ((st1.blobDelTry key compOk).rollbackTx, Except.error Err.internal)
    else
      ((st1.blobDelTry key compOk).rollbackTx, Except.error Err.notFound)

/-- `CategoryService.get_category_by_id`: the read path; 404 whether the row
is absent or belongs to another user. -/
def CategoryService.get_category_by_id (user cid : Nat) (st : St) :
    Except Err CategoryRow :=
  match CategoryRepository.find_category_by_id st.cur user cid with
  | none => Except.error Err.notFound
  | some c => Except.ok c

/-- `ImageWordService.find_by_id`: the read path for image words. -/
def ImageWordService.find_by_id (user wid : Nat) (st : St) :
    Except Err ImageWordRow :=
  match ImageWordRepository.find_image_word_by_id st.cur user wid with
  | none => Except.error Err.notFound
  | some w => Except.ok w

/-- `CategoryRepository.update_fields` applied to `cur`: set `name`, and set
`image_url` only when a non-None value was put into `update_data`. -/
def CategoryRepository.update_fields (db : DB) (cid : Nat) (name : String)
    (newUrl : Option String) : DB :=
  { db with categories := db.categories.map fun c =>
      if c.id == cid then
        { c with name := name,
                 image_url := match newUrl with
                   | some u => some u
                   | none => c.image_url }
      else c }

/-- `CategoryService.update_category`: 404 if the target is unreachable;
otherwise upload the replacement image first (if one was supplied), apply
the relational update, commit, and only then delete the previous asset.
`old_image_url` is `str(existing_category.image_url)` in Python, hence
`"None"` for a NULL column.  The post-commit delete runs only when both
`new_image_url` and `old_image_url` are truthy; the `except` block deletes
the new upload (when truthy) and rolls back.  `compOk` and `oldOk` are the
backend outcomes of those two storage deletes: either can fail silently
(return `False`, object kept), and the service ignores the result. -/
def CategoryService.update_category (user cid : Nat) (name : String)
    (hasImage : Bool) (uploadR : Option String) (updOk commitOk compOk oldOk : Bool)
    (st : St) : St × Except Err CategoryRow :=
  match CategoryRepository.find_category_by_id st.cur user cid with
  | none => (st, Except.error Err.notFound)
  | some row =>
    let old : String := match row.image_url with
      | some u => u
      | none => "None"
    if hasImage then
      match uploadR with
      | none => (st.rollbackTx, Except.error Err.internal)
      | some key =>
        let st1 := st.uploadKey key
        if updOk then
          let newUrl : Option String := if key ≠ "" then some key else none
          let st2 : St :=
            { st1 with
              cur := CategoryRepository.update_fields st1.cur cid name newUrl,
              trace := st1.trace ++ [Ev.dbWrite] }
          let newRow : CategoryRow :=
            { row with name := name,
                       image_url := match newUrl with
                         | some u => some u
                         | none => row.image_url }
          if commitOk then
            let st3 := st2.commitTx
            if key ≠ "" && old ≠ "" then
              (st3.blobDelTry old oldOk, Except.ok newRow)
            else
              (st3, Except.ok newRow)
          else
            ((if key ≠ "" then st2.blobDelTry key compOk else st2).rollbackTx,
              Except.error Err.internal)
        else
          ((if key ≠ "" then st1.blobDelTry key compOk else st1).rollbackTx,
            Except.error Err.internal)
    else
      if updOk then
        let st2 : St :=
          { st with
            cur := CategoryRepository.update_fields st.cur cid name none,
            trace := st.trace ++ [Ev.dbWrite] }
        if commitOk then
          (st2.commitTx, Except.ok { row with name := name })
        else
          (st2.rollbackTx, Except.error Err.internal)
      else
        (st.rollbackTx, Except.error Err.internal)

/-- `ImageWordService.update`: 404 if the target is unreachable; otherwise
upload the replacement image first (when `has_new_image`), run the
ownership-scoped relational update writing the new key (or re-writing the
old one), commit, and only after the commit delete the previous asset.
`compOk` / `oldOk` are the backend outcomes of the compensating and
post-commit storage deletes, whose `False` returns the service ignores. -/
def ImageWordService.update (user wid : Nat) (word : String) (_cid : Nat)
    (hasImage : Bool) (uploadR : Option String) (dbOk commitOk compOk oldOk : Bool)
    (st : St) : St × Except Err ImageWordRow :=
  match ImageWordRepository.find_image_word_by_id st.cur user wid with
  | none => (st, Except.error Err.notFound)
  | some row =>
    let old : Option String := row.image_url
    if hasImage then
      match uploadR with
      | none => (st.rollbackTx, Except.error Err.internal)
      | some key =>
        let st1 := st.uploadKey key
        if dbOk then
          let newRow : ImageWordRow :=
            { row with word := word, image_url := some key }
          let st2 : St :=
            { st1 with
              cur := { st1.cur with words := st1.cur.words.map fun w =>
                        if w.id == wid then newRow else w },
              trace := st1.trace ++ [Ev.dbWrite] }
          if commitOk then
            let st3 := st2.commitTx
            match old with
            | some u =>
              if u ≠ "" then (st3.blobDelTry u oldOk, Except.ok newRow)
              else (st3, Except.ok newRow)
            | none => (st3, Except.ok newRow)
          else
            ((if key ≠ "" then st2.blobDelTry key compOk else st2).rollbackTx,
              Except.error Err.internal)
        else
          ((if key ≠ "" then st1.blobDelTry key compOk else st1).rollbackTx,
            Except.error Err.internal)
    else
      if dbOk then
        let newRow : ImageWordRow := { row with word := word, image_url := old }
        let st2 : St :=
          { st with
            cur := { st.cur with words := st.cur.words.map fun w =>
                      if w.id == wid then newRow else w },
            trace := st.trace ++ [Ev.dbWrite] }
        if commitOk then
          (st2.commitTx, Except.ok newRow)
        else
          (st2.rollbackTx, Except.error Err.internal)
      else
        (st.rollbackTx, Except.error Err.internal)

/-- The URL harvest of `CategoryService.delete_category`: Python appends
`str(category.image_url)` when truthy (`str(None) = "None"` is truthy for a
NULL column), then each word's `image_url` when truthy. -/
def CategoryService.collect_urls (row : CategoryRow) (items : List ImageWordRow) :
    List String :=
  (match row.image_url with
    | some u => if u ≠ "" then [u] else []
    | none => ["None"]) ++
  items.filterMap fun w => match w.image_url with
    | some u => if u ≠ "" then some u else none
    | none => none

/-- `CategoryService.delete_category`: harvest asset URLs from the category
and its words before the relational delete, execute the ownership-scoped
delete (cascading to the words), commit, and only then invoke a blob delete
for each harvested URL; each blob failure (`blobOk url = false`) is logged
and swallowed, never surfacing to the caller. -/
def CategoryService.delete_category (user cid : Nat) (delOk commitOk : Bool)
    (blobOk : String → Bool) (st : St) : St × Except Err Unit :=
  match CategoryRepository.find_category_by_id st.cur user cid with
  | none => (st, Except.error Err.notFound)
  | some row =>
    let items := st.cur.words.filter fun w => w.category_id == cid
    let urls := CategoryService.collect_urls row items
    if delOk then
      let db1 : DB :=
        { st.cur with
          categories := st.cur.categories.filter fun c => !(c.id == cid),
          words := st.cur.words.filter fun w => !(w.category_id == cid) }
      let st1 : St := { st with cur := db1, trace := st.trace ++ [Ev.dbWrite] }
      if commitOk then
        let st2 := st1.commitTx
        (urls.foldl (fun s u => s.blobDelTry u (blobOk u)) st2, Except.ok ())
      else
        (st1.rollbackTx, Except.error Err.internal)
    else
      (st.rollbackTx, Except.error Err.internal)

/-- The URL harvest of `ProfileService.delete_by_id` over the loaded object
graph: for each category of the profile, its `image_url` when truthy, then
each of its items' `image_url` when truthy. -/
def ProfileService.collect_urls (db : DB) (pid : Nat) : List String :=
  ((db.categories.filter fun c => c.profile_id == pid).map fun c =>
    (match c.image_url with
      | some u => if u ≠ "" then [u] else []
      | none => []) ++
    ((db.words.filter fun w => w.category_id == c.id).filterMap fun w =>
      match w.image_url with
      | some u => if u ≠ "" then some u else none
      | none => none)).flatten

/-- `ProfileService.delete_by_id`: 404 if the profile is absent or not the
user's; harvest every asset URL of the profile's categories and their words
before the relational delete, delete (cascade removes the descendants),
commit, then invoke one blob delete per harvested URL, swallowing blob
failures. -/
def ProfileService.delete_by_id (user pid : Nat) (delOk commitOk : Bool)
    (blobOk : String → Bool) (st : St) : St × Except Err Unit :=
  match st.cur.profiles.find? (fun p => p.id == pid && p.user_id == user) with
  | none => (st, Except.error Err.notFound)
  | some _ =>
    let urls := ProfileService.collect_urls st.cur pid
    if delOk then
      let db1 : DB :=
        { st.cur with
          profiles := st.cur.profiles.filter fun p => !(p.id == pid && p.user_id == user),
          categories := st.cur.categories.filter fun c => !(c.profile_id == pid),
          words := st.cur.words.filter fun w =>
            !(st.cur.categories.any fun c => c.id == w.category_id && c.profile_id == pid) }
      let st1 : St := { st with cur := db1, trace := st.trace ++ [Ev.dbWrite] }
      if commitOk then
        let st2 := st1.commitTx
        (urls.foldl (fun s u => s.blobDelTry u (blobOk u)) st2, Except.ok ())
      else
        (st1.rollbackTx, Except.error Err.internal)
    else
      (st.rollbackTx, Except.error Err.internal)

/-- `ImageWordService.delete_by_id`: 404 if unreachable; relational delete,
commit, then post-commit cleanup of the single asset (truthy check),
swallowing a blob failure. -/
def ImageWordService.delete_by_id (user wid : Nat) (delOk commitOk : Bool)
    (blobOk : Bool) (st : St) : St × Except Err Unit :=
  match ImageWordRepository.find_image_word_by_id st.cur user wid with
  | none => (st, Except.error Err.notFound)
  | some row =>
    if delOk then
      let db1 : DB :=
        { st.cur with words := st.cur.words.filter fun w => !(w.id == wid) }
      let st1 : St := { st with cur := db1, trace := st.trace ++ [Ev.dbWrite] }
      if commitOk then
        let st2 := st1.commitTx
        match row.image_url with
        | some u =>
          if u ≠ "" then (st2.blobDelTry u blobOk, Except.ok ())
          else (st2, Except.ok ())
        | none => (st2, Except.ok ())
      else
        (st1.rollbackTx, Except.error Err.internal)
    else
      (st.rollbackTx, Except.error Err.internal)

/-- The fixed category seed catalog of
`ProfileService.seed_categories_and_image_words`. -/
def categories_to_seed : List (String × String) :=
  [("Algused", "beginning.png"), ("Tegevused", "activity.png")]

/-- The fixed word seed catalog (target category, word text, asset file). -/
def words_to_seed : List (String × String × String) :=
  [("Algused", "Ma tahan", "I want.png"),
   ("Algused", "Jah", "yes.png"),
   ("Algused", "Ei", "no.png"),
   ("Tegevused", "mängima", "play.png"),
   ("Tegevused", "sööma", "eat.png"),
   ("Tegevused", "magama", "sleep.png")]

/-- Chosen outcomes for one seeding step: whether
`SeedingService.get_upload_file` finds the bundled file, the blob-upload
outcome, and the relational flush / commit outcomes inside the nested
create call. -/
structure StepOut where
  fileOk : Bool
  uploadR : Option String
  dbOk : Bool
  commitOk : Bool
  compOk : Bool
deriving DecidableEq, Repr

/-- A fully successful seeding step uploading key `k`. -/
def okStep (k : String) : StepOut :=
  { fileOk := true, uploadR := some k, dbOk := true, commitOk := true,
    compOk := true }

/-- A seeding step whose blob upload fails. -/
def uploadFailStep : StepOut :=
  { fileOk := true, uploadR := none, dbOk := true, commitOk := true,
    compOk := true }

/-- Pop the next step outcome from the plan (a missing entry behaves as a
failing `get_upload_file`). -/
def takeStep : List StepOut → StepOut × List StepOut
  | [] => ({ fileOk := false, uploadR := none, dbOk := true, commitOk := true,
             compOk := true }, [])
  | s :: rest => (s, rest)

/-- The category loop of `seed_categories_and_image_words`: for each catalog
entry, read the bundled file and call `CategoryService.create_category`
(which commits the shared session itself on success); the first raised
error stops the loop and propagates. -/
def seedCats (user pid : Nat) :
    List (String × String) → List StepOut → St → List (String × CategoryRow) →
    St × List StepOut × List (String × CategoryRow) × Option Err
  | [], plan, st, acc => (st, plan, acc, none)
  | (name, _img) :: rest, plan, st, acc =>
    let (s, plan1) := takeStep plan
    if s.fileOk then
      match CategoryService.create_category user pid name s.uploadR s.dbOk s.commitOk s.compOk st with
      | (st1, Except.ok row) => seedCats user pid rest plan1 st1 (acc ++ [(name, row)])
      | (st1, Except.error e) => (st1, plan1, acc, some e)
    else
      (st, plan1, acc, some Err.internal)

/-- The word loop of `seed_categories_and_image_words`: look the target
category up among the just-created ones (skipping with a warning when it is
missing or has a falsy id, as Python's `if category and category.id:`
does), read the bundled file and call `ImageWordService.save` (which
commits the shared session itself on success); the first raised error stops
the loop and propagates. -/
def seedWords (user : Nat) :
    List (String × String × String) → List StepOut → St →
    List (String × CategoryRow) → St × List StepOut × Option Err
  | [], plan, st, _created => (st, plan, none)
  | (catName, word, _img) :: rest, plan, st, created =>
    match created.lookup catName with
    | some cat =>
      if cat.id ≠ 0 then
        let (s, plan1) := takeStep plan
        if s.fileOk then
          match ImageWordService.save user cat.id word s.uploadR s.dbOk s.commitOk s.compOk st with
          | (st1, Except.ok _) => seedWords user rest plan1 st1 created
          | (st1, Except.error e) => (st1, plan1, some e)
        else
          (st, plan1, some Err.internal)
      else
        seedWords user rest plan st created
    | none => seedWords user rest plan st created

/-- `ProfileService.seed_categories_and_image_words`: run the category loop,
then the word loop, on the shared session. -/
def ProfileService.seed_categories_and_image_words (user pid : Nat)
    (plan : List StepOut) (st : St) : St × List StepOut × Option Err :=
  match seedCats user pid categories_to_seed plan st [] with
  | (st1, plan1, created, none) => seedWords user words_to_seed plan1 st1 created
  | (st1, plan1, _created, some e) => (st1, plan1, some e)

/-- `UserService.seed_initial_profile`: if the user has no profiles, insert
the default `"Vaikimisi"` profile (flush only — the caller manages the
transaction) and trigger the deep seeding; any error is re-raised without a
commit or rollback here. -/
def UserService.seed_initial_profile (user : Nat) (plan : List StepOut)
    (st : St) : St × Option Err :=
  if (profilesOfUser st.cur user).isEmpty then
    let prof : ProfileRow := { id := st.nextId, user_id := user, name := "Vaikimisi" }
    let st1 : St :=
      { st with
        cur := { st.cur with profiles := st.cur.profiles ++ [prof] },
        trace := st.trace ++ [Ev.dbWrite],
        nextId := st.nextId + 1 }
    match ProfileService.seed_categories_and_image_words user prof.id plan st1 with
    | (st2, _, none) => (st2, none)
    | (st2, _, some e) => (st2, some e)
  else
    (st, none)

/-- `UserService.register_user`: reject an already-registered email, insert
the user row, run `seed_initial_profile`, then commit; on any raised error,
roll back and fail with 500. -/
def UserService.register_user (user : Nat) (email : String)
    (plan : List StepOut) (st : St) : St × Except Err Unit :=
  if st.cur.users.any fun u => u.email == email then
    (st, Except.error Err.badRequest)
  else
    let u : UserRow := { id := user, email := email }
    let st1 : St :=
      { st with
        cur := { st.cur with users := st.cur.users ++ [u] },
        trace := st.trace ++ [Ev.dbWrite] }
    match UserService.seed_initial_profile user plan st1 with
    | (st2, none) => (st2.commitTx, Except.ok ())
    | (st2, some _) => (st2.rollbackTx, Except.error Err.internal)

/-- `UserService.authenticate_user`: on valid credentials, run
`seed_initial_profile` (lazy migration) and commit; a raised seeding error
propagates out of the service, and the session teardown in `get_db` rolls
the transaction back. -/
def UserService.authenticate_user (user : Nat) (credsOk : Bool)
    (plan : List StepOut) (st : St) : St × Except Err Unit :=
  if credsOk then
    match UserService.seed_initial_profile user plan st with
    | (st1, none) => (st1.commitTx, Except.ok ())
    | (st1, some _) => (st1.rollbackTx, Except.error Err.internal)
  else
    (st, Except.error Err.badRequest)

/-- `LocalStorageService.delete`: remove the file when it exists and return
whether a file was removed; `removeOk = false` models an OS error from
`os.remove`, which is caught and reported as `false`.  The function is
total: "not found" never raises. -/
def LocalStorageService.delete (store : List String) (key : String)
    (removeOk : Bool) : List String × Bool :=
  if key ∈ store then
    if removeOk then (store.erase key, true) else (store, false)
  else
    (store, false)

/-- `CloudflareR2Service.delete`: issue `delete_object` and return `true`
whenever the backend call succeeds — S3-style deletes succeed for missing
keys too, so key existence plays no role in the result; any raised backend
error is caught and reported as `false`. -/
def CloudflareR2Service.delete (store : List String) (key : String)
    (backendOk : Bool) : List String × Bool :=
  if backendOk then (store.erase key, true) else (store, false)

/-- `UserService.initiate_password_reset`: look the user up by email; when
none matches, log and return `True`.  Otherwise store a `PasswordResetToken`
row and commit, queueing the reset email; when the store or commit raises,
roll back, log — and still return `True`.  The result pairs the resulting
token table with the Boolean handed back to the caller. -/
def UserService.initiate_password_reset (users : List UserRow) (email : String)
    (token : String) (commitOk : Bool) (tokens : List (String × Nat)) :
    List (String × Nat) × Bool :=
  match users.find? (fun u => u.email == email) with
  | none => (tokens, true)
  | some u =>
    if commitOk then (tokens ++ [(token, u.id)], true)
    else (tokens, true)

/-- One upstream response as seen by `TtsService._make_request`: an HTTP
status code, or a network / timeout error raised by the `post` call. -/
inductive Resp where
  | status (code : Nat)
  | netErr
deriving DecidableEq, Repr

/-- Terminal outcome of one logical `text_to_speech` call. -/
inductive TtsOutcome where
  | success (body : List Nat)
  | badRequest
  | unavailable
  | internal
deriving DecidableEq, Repr

/-- What `_make_request` does at one attempt: return the payload, raise the
retry-triggering exception (after the recorded sleeps), or raise a terminal
`HTTPException`. -/
inductive MkRes where
  | ok (body : List Nat)
  | retry (sleeps : List Nat)
  | term (o : TtsOutcome)
deriving DecidableEq, Repr

/-- `MAX_RETRIES` of `tts_service.py`. -/
def MAX_RETRIES : Nat := 5

/-- `BASE_DELAY_MS` of `tts_service.py`. -/
def BASE_DELAY_MS : Nat := 500

/-- The delay computed at the top of `_make_request` (in milliseconds):
`BASE_DELAY * 2 ** attempt + uniform(0, BASE_DELAY)`, the random draw being
supplied as the function `jitter`. -/
def ttsDelay (jitter : Nat → Nat) (attempt : Nat) : Nat :=
  BASE_DELAY_MS * 2 ^ attempt + jitter attempt

/-- `TtsService._make_request` at one attempt.  2xx returns the payload.  A
retryable status (429 or ≥ 500) with attempts remaining sleeps the delay and
raises `httpx.RequestError` — which is caught by the function's own
network-error handler, sleeping the same delay a second time before
re-raising; with no attempts remaining it raises a terminal 503.  Any other
status raises a terminal 400.  A network error with attempts remaining
sleeps the delay once and re-raises; otherwise it raises a terminal 503. -/
def TtsService.make_request (resp : Nat → Resp) (body : Nat → List Nat)
    (jitter : Nat → Nat) (attempt : Nat) : MkRes :=
  let delay := ttsDelay jitter attempt
  match resp attempt with
  | Resp.status code =>
    if 200 ≤ code ∧ code < 300 then
      MkRes.ok (body attempt)
    else if code = 429 ∨ 500 ≤ code then
      if attempt < MAX_RETRIES - 1 then
        MkRes.retry [delay, delay]
      else
        MkRes.term TtsOutcome.unavailable
    else
      MkRes.term TtsOutcome.badRequest
  | Resp.netErr =>
    if attempt < MAX_RETRIES - 1 then
      MkRes.retry [delay]
    else
      MkRes.term TtsOutcome.unavailable

/-- Aggregate observable behaviour of one `text_to_speech` call: its
terminal outcome, the number of HTTP attempts actually made, and the sleeps
performed, in order. -/
structure TtsTrace where
  outcome : TtsOutcome
  attempts : Nat
  sleeps : List Nat
deriving DecidableEq, Repr

/-- The retry loop of `TtsService.text_to_speech`, with `fuel` the number of
loop iterations left (`range(MAX_RETRIES)`): each iteration calls
`_make_request`; a retry-triggering exception is caught and the loop
continues, a terminal exception propagates, and an exhausted loop falls
through to the final 500. -/
def ttsGo (resp : Nat → Resp) (body : Nat → List Nat) (jitter : Nat → Nat) :
    Nat → Nat → List Nat → TtsTrace
  | 0, attempt, sleeps => ⟨TtsOutcome.internal, attempt, sleeps⟩
  | fuel + 1, attempt, sleeps =>
    match TtsService.make_request resp body jitter attempt with
    | MkRes.ok b => ⟨TtsOutcome.success b, attempt + 1, sleeps⟩
    | MkRes.retry ds => ttsGo resp body jitter fuel (attempt + 1) (sleeps ++ ds)
    | MkRes.term o => ⟨o, attempt + 1, sleeps⟩

/-- `TtsService.text_to_speech`: run the retry loop from attempt 0. -/
def TtsService.text_to_speech (resp : Nat → Resp) (body : Nat → List Nat)
    (jitter : Nat → Nat) : TtsTrace :=
  ttsGo resp body jitter MAX_RETRIES 0 []

/-- The empty system state (fresh database, empty blob store). -/
def St.empty : St :=
  { committed := ⟨[], [], [], []⟩, cur := ⟨[], [], [], []⟩,
    blob := [], trace := [], nextId := 1 }

/-- A small populated fixture: user 1 owns profile 1, which owns category 5
(asset `"old"`) containing word 9 (asset `"old2"`); both assets exist. -/
def DB.fixture : DB :=
  { users := [{ id := 1, email := "u@example.com" }],
    profiles := [{ id := 1, user_id := 1, name := "P" }],
    categories := [{ id := 5, profile_id := 1, name := "Cat", image_url := some "old" }],
    words := [{ id := 9, category_id := 5, word := "w", image_url := some "old2" }] }

/-- Fixture state for concrete instantiations of the service theorems. -/
def St.fixture : St :=
  { committed := DB.fixture, cur := DB.fixture,
    blob := ["old", "old2"], trace := [], nextId := 10 }

/-- A seeding plan whose two category steps succeed and whose first word
step fails at the blob upload. -/
def planC5 : List StepOut := [okStep "k1", okStep "k2", uploadFailStep]

/-- An upstream that always answers HTTP 400. -/
def resp400 : Nat → Resp := fun _ => Resp.status 400

/-- An upstream that always answers HTTP 503. -/
def resp503 : Nat → Resp := fun _ => Resp.status 503

/-- An upstream that answers 429 on the first three attempts, then 200. -/
def resp429x3 : Nat → Resp := fun k => if k < 3 then Resp.status 429 else Resp.status 200

/-- A fixed response payload. -/
def body0 : Nat → List Nat := fun _ => [1, 2]

/-- A zero jitter draw. -/
def jitter0 : Nat → Nat := fun _ => 0

theorem erase_cons_self (k : String) (l : List String) : (k :: l).erase k = l := by
  simp [List.erase_cons_head]

/-- C1 counterexample: on the fixture (fresh key `"new"`), a commit failure
after a successful upload does issue the compensating delete before
surfacing the error — but when that delete's backend call fails silently
(both backends catch the error and return `False`, which the service
ignores), the uploaded asset still exists in the blob store afterward. -/
theorem create_failed_cleanup_can_leave_asset :
    (CategoryService.create_category 1 1 "C" (some "new") true false false St.fixture).2
      = Except.error Err.internal ∧
    Ev.blobDelete "new" ∈
      (CategoryService.create_category 1 1 "C" (some "new") true false false St.fixture).1.trace ∧
    "new" ∈ (CategoryService.create_category 1 1 "C" (some "new") true false false St.fixture).1.blob :=
  ⟨rfl, by decide, by decide⟩

/-- C1 (amended): creating a Category or an ImageWord with an asset.  If the
blob upload fails, the committed database and the blob store are untouched
(a relational no-op).  If the operation fails in any later way (ownership
check, relational write, or commit) after a successful upload of a fresh
key `k`, the committed database is unchanged and a compensating blob delete
of `k` is issued before the error is surfaced; the uploaded asset is gone
exactly when that delete's backend call succeeds — when it fails silently,
the asset remains as a residual. -/
theorem create_with_asset_compensates (user pid cid : Nat) (name word k : String)
    (dbOk commitOk compOk : Bool) (st : St) (hk : k ∉ st.blob) :
    ((CategoryService.create_category user pid name none dbOk commitOk compOk st).1.committed
        = st.committed ∧
     (CategoryService.create_category user pid name none dbOk commitOk compOk st).1.blob
        = st.blob ∧
     (CategoryService.create_category user pid name none dbOk commitOk compOk st).2
        = Except.error Err.internal) ∧
    (∀ e, (CategoryService.create_category user pid name (some k) dbOk commitOk compOk st).2
        = Except.error e →
      (CategoryService.create_category user pid name (some k) dbOk commitOk compOk st).1.committed
        = st.committed ∧
      Ev.blobDelete k ∈ (CategoryService.create_category user pid name (some k) dbOk commitOk compOk st).1.trace ∧
      (compOk = true →
        k ∉ (CategoryService.create_category user pid name (some k) dbOk commitOk compOk st).1.blob) ∧
      (compOk = false →
        k ∈ (CategoryService.create_category user pid name (some k) dbOk commitOk compOk st).1.blob)) ∧
    ((ImageWordService.save user cid word none dbOk commitOk compOk st).1.committed
        = st.committed ∧
     (ImageWordService.save user cid word none dbOk commitOk compOk st).1.blob
        = st.blob ∧
     (ImageWordService.save user cid word none dbOk commitOk compOk st).2
        = Except.error Err.internal) ∧
    (∀ e, (ImageWordService.save user cid word (some k) dbOk commitOk compOk st).2
        = Except.error e →
      (ImageWordService.save user cid word (some k) dbOk commitOk compOk st).1.committed
        = st.committed ∧
      Ev.blobDelete k ∈ (ImageWordService.save user cid word (some k) dbOk commitOk compOk st).1.trace ∧
      (compOk = true →
        k ∉ (ImageWordService.save user cid word (some k) dbOk commitOk compOk st).1.blob) ∧
      (compOk = false →
        k ∈ (ImageWordService.save user cid word (some k) dbOk commitOk compOk st).1.blob)) := by
  refine ⟨?_, ?_, ?_, ?_⟩
  · simp [CategoryService.create_category, St.rollbackTx]
  · intro e he
    by_cases h1 : profileOwned st.cur user pid = true <;>
      cases dbOk <;> cases commitOk <;> cases compOk <;>
      simp_all [CategoryService.create_category, St.rollbackTx, St.blobDelTry,
        St.uploadKey, St.commitTx, erase_cons_self]
  · simp [ImageWordService.save, St.rollbackTx]
  · intro e he
    by_cases h1 : categoryOwned st.cur user cid = true <;>
      cases dbOk <;> cases commitOk <;> cases compOk <;>
      simp_all [ImageWordService.save, St.rollbackTx, St.blobDelTry,
        St.uploadKey, St.commitTx, erase_cons_self]

/-- C1 witness: on the fixture (fresh key `"new"`), a commit failure after a
successful upload whose compensating delete succeeds leaves the committed
database unchanged and the key gone. -/
theorem create_with_asset_compensates_witness :
    ("new" ∉ St.fixture.blob) ∧
    ((CategoryService.create_category 1 1 "C" (some "new") true false true St.fixture).1.committed
        = St.fixture.committed) ∧
    "new" ∉ (CategoryService.create_category 1 1 "C" (some "new") true false true St.fixture).1.blob :=
  ⟨by decide,
   ((create_with_asset_compensates 1 1 5 "C" "w2" "new" true false true St.fixture
      (by decide)).2.1 Err.internal rfl).1,
   ((create_with_asset_compensates 1 1 5 "C" "w2" "new" true false true St.fixture
      (by decide)).2.1 Err.internal rfl).2.2.1 rfl⟩

/-- C2 counterexample: on the fixture, a commit failure after uploading the
replacement key `"new"` for category 5 invokes the compensating delete of
the new key, but with the delete backend failing silently the newly
uploaded asset is not removed — it remains in the blob store (the original
asset `"old"` is untouched, as claimed). -/
theorem update_failed_cleanup_can_leave_asset :
    (CategoryService.update_category 1 5 "C2" true (some "new") true false false true St.fixture).2
      = Except.error Err.internal ∧
    Ev.blobDelete "new" ∈
      (CategoryService.update_category 1 5 "C2" true (some "new") true false false true St.fixture).1.trace ∧
    "new" ∈ (CategoryService.update_category 1 5 "C2" true (some "new") true false false true St.fixture).1.blob ∧
    "old" ∈ (CategoryService.update_category 1 5 "C2" true (some "new") true false false true St.fixture).1.blob :=
  ⟨rfl, by decide, by decide, by decide⟩

/-- C2 (amended): updating a Category or an ImageWord with a replacement
asset.  With the target reachable, its current asset (`oldc` / `oldw`)
present in the blob store, and a fresh upload key `k`: (D) if the upload
fails nothing changes relationally and nothing is deleted; (A) if the
relational write fails after the upload, or (B) the commit fails after the
write, a compensating delete of the new key is invoked, the committed
database is unchanged and the old asset is still resolvable — the new key
is gone exactly when the delete's backend call succeeds, and remains as a
residual when it fails silently — and the traces show the upload preceding
any relational write and no delete of the old asset; (C) on success the
trace shows the old asset deleted only after the commit, with the new key
in the store. -/
theorem update_replaces_asset_safely (user cid wid cid2 : Nat)
    (name wname k oldc oldw : String) (commitOk compOk oldOk : Bool) (st : St)
    (row : CategoryRow) (wrow : ImageWordRow)
    (hc : CategoryRepository.find_category_by_id st.cur user cid = some row)
    (hrow : row.image_url = some oldc)
    (hw : ImageWordRepository.find_image_word_by_id st.cur user wid = some wrow)
    (hwrow : wrow.image_url = some oldw)
    (holdc : oldc ≠ "") (holdw : oldw ≠ "") (hk : k ≠ "") (hkb : k ∉ st.blob)
    (hkoc : k ≠ oldc) (hkow : k ≠ oldw)
    (holdcb : oldc ∈ st.blob) (holdwb : oldw ∈ st.blob) :
    (((CategoryService.update_category user cid name true none true commitOk compOk oldOk st).1.committed
        = st.committed ∧
      (CategoryService.update_category user cid name true none true commitOk compOk oldOk st).1.blob
        = st.blob ∧
      (CategoryService.update_category user cid name true none true commitOk compOk oldOk st).2
        = Except.error Err.internal) ∧
     ((CategoryService.update_category user cid name true (some k) false commitOk compOk oldOk st).1.committed
        = st.committed ∧
      (CategoryService.update_category user cid name true (some k) false commitOk compOk oldOk st).1.trace
        = st.trace ++ [Ev.upload k, Ev.blobDelete k, Ev.rollback] ∧
      (compOk = true →
        k ∉ (CategoryService.update_category user cid name true (some k) false commitOk compOk oldOk st).1.blob) ∧
      (compOk = false →
        k ∈ (CategoryService.update_category user cid name true (some k) false commitOk compOk oldOk st).1.blob) ∧
      oldc ∈ (CategoryService.update_category user cid name true (some k) false commitOk compOk oldOk st).1.blob ∧
      (CategoryService.update_category user cid name true (some k) false commitOk compOk oldOk st).2
        = Except.error Err.internal) ∧
     ((CategoryService.update_category user cid name true (some k) true false compOk oldOk st).1.committed
        = st.committed ∧
      (CategoryService.update_category user cid name true (some k) true false compOk oldOk st).1.trace
        = st.trace ++ [Ev.upload k, Ev.dbWrite, Ev.blobDelete k, Ev.rollback] ∧
      (compOk = true →
        k ∉ (CategoryService.update_category user cid name true (some k) true false compOk oldOk st).1.blob) ∧
      (compOk = false →
        k ∈ (CategoryService.update_category user cid name true (some k) true false compOk oldOk st).1.blob) ∧
      oldc ∈ (CategoryService.update_category user cid name true (some k) true false compOk oldOk st).1.blob ∧
      (CategoryService.update_category user cid name true (some k) true false compOk oldOk st).2
        = Except.error Err.internal) ∧
     ((CategoryService.update_category user cid name true (some k) true true compOk oldOk st).1.trace
        = st.trace ++ [Ev.upload k, Ev.dbWrite, Ev.commit, Ev.blobDelete oldc] ∧
      k ∈ (CategoryService.update_category user cid name true (some k) true true compOk oldOk st).1.blob ∧
      (CategoryService.update_category user cid name true (some k) true true compOk oldOk st).2
        = Except.ok { row with name := name, image_url := some k })) ∧
    (((ImageWordService.update user wid wname cid2 true none true commitOk compOk oldOk st).1.committed
        = st.committed ∧
      (ImageWordService.update user wid wname cid2 true none true commitOk compOk oldOk st).1.blob
        = st.blob ∧
      (ImageWordService.update user wid wname cid2 true none true commitOk compOk oldOk st).2
        = Except.error Err.internal) ∧
     ((ImageWordService.update user wid wname cid2 true (some k) false commitOk compOk oldOk st).1.committed
        = st.committed ∧
      (ImageWordService.update user wid wname cid2 true (some k) false commitOk compOk oldOk st).1.trace
        = st.trace ++ [Ev.upload k, Ev.blobDelete k, Ev.rollback] ∧
      (compOk = true →
        k ∉ (ImageWordService.update user wid wname cid2 true (some k) false commitOk compOk oldOk st).1.blob) ∧
      (compOk = false →
        k ∈ (ImageWordService.update user wid wname cid2 true (some k) false commitOk compOk oldOk st).1.blob) ∧
      oldw ∈ (ImageWordService.update user wid wname cid2 true (some k) false commitOk compOk oldOk st).1.blob ∧
      (ImageWordService.update user wid wname cid2 true (some k) false commitOk compOk oldOk st).2
        = Except.error Err.internal) ∧
     ((ImageWordService.update user wid wname cid2 true (some k) true false compOk oldOk st).1.committed
        = st.committed ∧
      (ImageWordService.update user wid wname cid2 true (some k) true false compOk oldOk st).1.trace
        = st.trace ++ [Ev.upload k, Ev.dbWrite, Ev.blobDelete k, Ev.rollback] ∧
      (compOk = true →
        k ∉ (ImageWordService.update user wid wname cid2 true (some k) true false compOk oldOk st).1.blob) ∧
      (compOk = false →
        k ∈ (ImageWordService.update user wid wname cid2 true (some k) true false compOk oldOk st).1.blob) ∧
      oldw ∈ (ImageWordService.update user wid wname cid2 true (some k) true false compOk oldOk st).1.blob ∧
      (ImageWordService.update user wid wname cid2 true (some k) true false compOk oldOk st).2
        = Except.error Err.internal) ∧
     ((ImageWordService.update user wid wname cid2 true (some k) true true compOk oldOk st).1.trace
        = st.trace ++ [Ev.upload k, Ev.dbWrite, Ev.commit, Ev.blobDelete oldw] ∧
      k ∈ (ImageWordService.update user wid wname cid2 true (some k) true true compOk oldOk st).1.blob ∧
      (ImageWordService.update user wid wname cid2 true (some k) true true compOk oldOk st).2
        = Except.ok { wrow with word := wname, image_url := some k })) := by
  have herase : (k :: st.blob).erase k = st.blob := erase_cons_self k st.blob
  have hmemc : k ∈ (k :: st.blob).erase oldc := by
    rw [List.mem_erase_of_ne hkoc]
    exact List.mem_cons_self k st.blob
  have hmemw : k ∈ (k :: st.blob).erase oldw := by
    rw [List.mem_erase_of_ne hkow]
    exact List.mem_cons_self k st.blob
  refine ⟨⟨?_, ?_, ?_, ?_⟩, ⟨?_, ?_, ?_, ?_⟩⟩
  · simp [CategoryService.update_category, hc, St.rollbackTx]
  · cases compOk <;>
      simp [CategoryService.update_category, hc, hk, St.rollbackTx, St.blobDelTry,
        St.uploadKey, herase, hkb, holdcb]
  · cases compOk <;>
      simp [CategoryService.update_category, hc, hk, St.rollbackTx, St.blobDelTry,
        St.uploadKey, St.commitTx, herase, hkb, holdcb]
  · cases oldOk <;>
      simp [CategoryService.update_category, hc, hrow, hk, holdc, St.blobDelTry,
        St.uploadKey, St.commitTx, hmemc]
  · simp [ImageWordService.update, hw, St.rollbackTx]
  · cases compOk <;>
      simp [ImageWordService.update, hw, hk, St.rollbackTx, St.blobDelTry,
        St.uploadKey, herase, hkb, holdwb]
  · cases compOk <;>
      simp [ImageWordService.update, hw, hk, St.rollbackTx, St.blobDelTry,
        St.uploadKey, St.commitTx, herase, hkb, holdwb]
  · cases oldOk <;>
      simp [ImageWordService.update, hw, hwrow, hk, holdw, St.blobDelTry,
        St.uploadKey, St.commitTx, hmemw]

/-- C2 witness: on the fixture (category 5 with asset `"old"`, word 9 with
asset `"old2"`, fresh key `"new"`), a commit failure after the replacement
upload whose compensating delete succeeds leaves the committed database
unchanged, removes the new key, and keeps the old asset. -/
theorem update_replaces_asset_safely_witness :
    ("new" : String) ≠ "" ∧
    ((CategoryService.update_category 1 5 "C2" true (some "new") true false true true St.fixture).1.committed
      = St.fixture.committed ∧
     (CategoryService.update_category 1 5 "C2" true (some "new") true false true true St.fixture).1.trace
      = St.fixture.trace ++ [Ev.upload "new", Ev.dbWrite, Ev.blobDelete "new", Ev.rollback] ∧
     "new" ∉ (CategoryService.update_category 1 5 "C2" true (some "new") true false true true St.fixture).1.blob ∧
     "old" ∈ (CategoryService.update_category 1 5 "C2" true (some "new") true false true true St.fixture).1.blob ∧
     (CategoryService.update_category 1 5 "C2" true (some "new") true false true true St.fixture).2
      = Except.error Err.internal) := by
  have h := update_replaces_asset_safely 1 5 9 5 "C2" "w2" "new" "old" "old2"
    false true true St.fixture
    { id := 5, profile_id := 1, name := "Cat", image_url := some "old" }
    { id := 9, category_id := 5, word := "w", image_url := some "old2" }
    rfl rfl rfl rfl (by decide) (by decide) (by decide) (by decide)
    (by decide) (by decide) (by decide) (by decide)
  exact ⟨by decide,
    h.1.2.2.1.1, h.1.2.2.1.2.1, h.1.2.2.1.2.2.1 rfl,
    h.1.2.2.1.2.2.2.2.1, h.1.2.2.1.2.2.2.2.2⟩


theorem foldl_blobDelTry_trace (ok : String → Bool) :
    ∀ (urls : List String) (st : St),
    (urls.foldl (fun s u => s.blobDelTry u (ok u)) st).trace
      = st.trace ++ urls.map Ev.blobDelete := by
  intro urls
  induction urls with
  | nil => intro st; simp
  | cons u rest ih =>
    intro st
    rw [List.foldl_cons, ih]
    simp [St.blobDelTry]

theorem count_map_blobDelete (u : String) (urls : List String) :
    (urls.map Ev.blobDelete).count (Ev.blobDelete u) = urls.count u :=
  List.count_map_of_injective urls Ev.blobDelete (fun a b h => by cases h; rfl) u

/-- C3: deleting a Category or a Profile that commits successfully.  The
asset keys are harvested from the entity and all of its descendants before
the relational delete; after the commit, one blob delete is invoked per
harvested key (the trace extension is exactly `dbWrite, commit` followed by
one `blobDelete` per key, in harvest order, so each key's delete count grows
by exactly its multiplicity in the harvest); and the operation reports
success for every choice of blob-deletion outcomes `blobOk` — a blob
failure after the commit is never surfaced. -/
theorem delete_collects_then_deletes (user cid pid : Nat) (st : St)
    (blobOk : String → Bool) (row : CategoryRow) (p : ProfileRow)
    (hc : CategoryRepository.find_category_by_id st.cur user cid = some row)
    (hp : st.cur.profiles.find? (fun q => q.id == pid && q.user_id == user) = some p) :
    ((CategoryService.delete_category user cid true true blobOk st).2 = Except.ok () ∧
     (CategoryService.delete_category user cid true true blobOk st).1.trace
       = st.trace ++ [Ev.dbWrite, Ev.commit] ++
         (CategoryService.collect_urls row
           (st.cur.words.filter fun w => w.category_id == cid)).map Ev.blobDelete ∧
     (∀ u, ((CategoryService.delete_category user cid true true blobOk st).1.trace.count
              (Ev.blobDelete u))
        = st.trace.count (Ev.blobDelete u) +
          (CategoryService.collect_urls row
            (st.cur.words.filter fun w => w.category_id == cid)).count u)) ∧
    ((ProfileService.delete_by_id user pid true true blobOk st).2 = Except.ok () ∧
     (ProfileService.delete_by_id user pid true true blobOk st).1.trace
       = st.trace ++ [Ev.dbWrite, Ev.commit] ++
         (ProfileService.collect_urls st.cur pid).map Ev.blobDelete ∧
     (∀ u, ((ProfileService.delete_by_id user pid true true blobOk st).1.trace.count
              (Ev.blobDelete u))
        = st.trace.count (Ev.blobDelete u) +
          (ProfileService.collect_urls st.cur pid).count u)) := by
  have htrc :
      (CategoryService.delete_category user cid true true blobOk st).1.trace
        = st.trace ++ [Ev.dbWrite, Ev.commit] ++
          (CategoryService.collect_urls row
            (st.cur.words.filter fun w => w.category_id == cid)).map Ev.blobDelete := by
    simp [CategoryService.delete_category, hc, foldl_blobDelTry_trace,
      St.commitTx]
  have htrp :
      (ProfileService.delete_by_id user pid true true blobOk st).1.trace
        = st.trace ++ [Ev.dbWrite, Ev.commit] ++
          (ProfileService.collect_urls st.cur pid).map Ev.blobDelete := by
    simp [ProfileService.delete_by_id, hp, foldl_blobDelTry_trace, St.commitTx]
  refine ⟨⟨?_, htrc, ?_⟩, ⟨?_, htrp, ?_⟩⟩
  · simp [CategoryService.delete_category, hc]
  · intro u
    rw [htrc]
    simp [List.count_append, count_map_blobDelete, List.count_cons]
  · simp [ProfileService.delete_by_id, hp]
  · intro u
    rw [htrp]
    simp [List.count_append, count_map_blobDelete, List.count_cons]

/-- C3 witness: on the fixture, deleting category 5 with every blob delete
failing still succeeds, and the trace shows exactly one delete invocation
for each of the two harvested keys, after the commit. -/
theorem delete_collects_then_deletes_witness :
    ((CategoryService.delete_category 1 5 true true (fun _ => false) St.fixture).2
        = Except.ok () ∧
     (CategoryService.delete_category 1 5 true true (fun _ => false) St.fixture).1.trace
        = St.fixture.trace ++ [Ev.dbWrite, Ev.commit] ++
          (CategoryService.collect_urls
            { id := 5, profile_id := 1, name := "Cat", image_url := some "old" }
            (St.fixture.cur.words.filter fun w => w.category_id == 5)).map Ev.blobDelete ∧
     (∀ u, ((CategoryService.delete_category 1 5 true true (fun _ => false) St.fixture).1.trace.count
              (Ev.blobDelete u))
        = St.fixture.trace.count (Ev.blobDelete u) +
          (CategoryService.collect_urls
            { id := 5, profile_id := 1, name := "Cat", image_url := some "old" }
            (St.fixture.cur.words.filter fun w => w.category_id == 5)).count u)) :=
  (delete_collects_then_deletes 1 5 1 St.fixture (fun _ => false)
    { id := 5, profile_id := 1, name := "Cat", image_url := some "old" }
    { id := 1, user_id := 1, name := "P" } rfl rfl).1

theorem find_category_eq_none (db : DB) (user cid : Nat)
    (h : ¬ CategoryReachable db user cid) :
    CategoryRepository.find_category_by_id db user cid = none := by
  rw [CategoryRepository.find_category_by_id, List.find?_eq_none]
  intro c hcmem hpred
  apply h
  simp only [Bool.and_eq_true, beq_iff_eq, List.any_eq_true] at hpred
  obtain ⟨hid, p, hpmem, hpid, huser⟩ := hpred
  exact ⟨c, hcmem, hid, p, hpmem, hpid, huser⟩

theorem find_image_word_eq_none (db : DB) (user wid : Nat)
    (h : ¬ ImageWordReachable db user wid) :
    ImageWordRepository.find_image_word_by_id db user wid = none := by
  rw [ImageWordRepository.find_image_word_by_id, List.find?_eq_none]
  intro w hwmem hpred
  apply h
  simp only [Bool.and_eq_true, beq_iff_eq, List.any_eq_true] at hpred
  obtain ⟨hid, c, hcmem, hcid, p, hpmem, hpid, huser⟩ := hpred
  exact ⟨w, hwmem, hid, c, hcmem, hcid, p, hpmem, hpid, huser⟩

/-- C4: for a Category or ImageWord target that is absent or belongs to a
different user (i.e. not reachable from the requesting user), every read,
update and delete returns the same uniform `notFound` error — with the
state untouched — and never any distinct `forbidden` signal, for every
choice of the remaining arguments and failure outcomes. -/
theorem unreachable_is_uniform_not_found (user cid wid cid2 : Nat)
    (name wname : String)
    (hasImage updOk dbOk delOk commitOk compOk oldOk blobOk2 : Bool)
    (uploadR : Option String) (blobOk : String → Bool) (st : St)
    (hcr : ¬ CategoryReachable st.cur user cid)
    (hwr : ¬ ImageWordReachable st.cur user wid) :
    CategoryService.get_category_by_id user cid st = Except.error Err.notFound ∧
    CategoryService.update_category user cid name hasImage uploadR updOk commitOk compOk oldOk st
      = (st, Except.error Err.notFound) ∧
    CategoryService.delete_category user cid delOk commitOk blobOk st
      = (st, Except.error Err.notFound) ∧
    ImageWordService.find_by_id user wid st = Except.error Err.notFound ∧
    ImageWordService.update user wid wname cid2 hasImage uploadR dbOk commitOk compOk oldOk st
      = (st, Except.error Err.notFound) ∧
    ImageWordService.delete_by_id user wid delOk commitOk blobOk2 st
      = (st, Except.error Err.notFound) := by
  have hfc := find_category_eq_none st.cur user cid hcr
  have hfw := find_image_word_eq_none st.cur user wid hwr
  refine ⟨?_, ?_, ?_, ?_, ?_, ?_⟩
  · simp [CategoryService.get_category_by_id, hfc]
  · simp [CategoryService.update_category, hfc]
  · simp [CategoryService.delete_category, hfc]
  · simp [ImageWordService.find_by_id, hfw]
  · simp [ImageWordService.update, hfw]
  · simp [ImageWordService.delete_by_id, hfw]

/-- C4 witness: on the fixture, user 2 (who owns nothing) targeting
category 5 and word 9 — which do exist, but under user 1 — receives the
same `notFound` as for any absent id, here shown for read and update. -/
theorem unreachable_is_uniform_not_found_witness :
    (¬ CategoryReachable St.fixture.cur 2 5) ∧
    CategoryService.get_category_by_id 2 5 St.fixture = Except.error Err.notFound ∧
    CategoryService.update_category 2 5 "X" true (some "new") true true true true St.fixture
      = (St.fixture, Except.error Err.notFound) :=
  ⟨by decide,
   (unreachable_is_uniform_not_found 2 5 9 5 "X" "Y" true true true true true true true true
      (some "new") (fun _ => true) St.fixture (by decide) (by decide)).1,
   (unreachable_is_uniform_not_found 2 5 9 5 "X" "Y" true true true true true true true true
      (some "new") (fun _ => true) St.fixture (by decide) (by decide)).2.1⟩

/-- C5: the registration + seeding sequence does **not** commit as one
relational unit.  Concrete failing run: a fresh database, registration of
user 7, the two category seed steps succeed, then the first word seed step
fails at the blob upload.  Registration reports an error — yet the
committed database retains the user row, the default profile and both
seeded categories, because `CategoryService.create_category` committed the
shared session during seeding.  A full rollback would have left all four
tables empty. -/
theorem register_seed_commits_early :
    (UserService.register_user 7 "a@b.c" planC5 St.empty).2
      = Except.error Err.internal ∧
    (UserService.register_user 7 "a@b.c" planC5 St.empty).1.committed.users
      = [{ id := 7, email := "a@b.c" }] ∧
    (UserService.register_user 7 "a@b.c" planC5 St.empty).1.committed.profiles
      = [{ id := 1, user_id := 7, name := "Vaikimisi" }] ∧
    (UserService.register_user 7 "a@b.c" planC5 St.empty).1.committed.categories.length
      = 2 :=
  ⟨rfl, rfl, rfl, rfl⟩

/-- C6: a user with zero profiles at login time, on a successful login whose
eight seed steps all succeed, ends up with exactly one (new) profile, and
that profile contains the full fixed seed catalog: the two categories
`Algused` and `Tegevused` and the six image-words, each carrying its
uploaded asset key. -/
theorem login_seeds_full_catalog (user : Nat) (st : St)
    (k0 k1 k2 k3 k4 k5 k6 k7 : String)
    (hnop : profilesOfUser st.cur user = [])
    (hfc : ∀ c ∈ st.cur.categories, c.profile_id ≠ st.nextId)
    (hw1 : ∀ w ∈ st.cur.words, w.category_id ≠ st.nextId + 1)
    (hw2 : ∀ w ∈ st.cur.words, w.category_id ≠ st.nextId + 2) :
    (UserService.authenticate_user user true
        [okStep k0, okStep k1, okStep k2, okStep k3,
         okStep k4, okStep k5, okStep k6, okStep k7] st).2 = Except.ok () ∧
    profilesOfUser
        (UserService.authenticate_user user true
          [okStep k0, okStep k1, okStep k2, okStep k3,
           okStep k4, okStep k5, okStep k6, okStep k7] st).1.committed user
      = [{ id := st.nextId, user_id := user, name := "Vaikimisi" }] ∧
    ((UserService.authenticate_user user true
        [okStep k0, okStep k1, okStep k2, okStep k3,
         okStep k4, okStep k5, okStep k6, okStep k7] st).1.committed.categories.filter
        fun c => c.profile_id == st.nextId)
      = [{ id := st.nextId + 1, profile_id := st.nextId, name := "Algused",
            image_url := some k0 },
         { id := st.nextId + 2, profile_id := st.nextId, name := "Tegevused",
            image_url := some k1 }] ∧
    ((UserService.authenticate_user user true
        [okStep k0, okStep k1, okStep k2, okStep k3,
         okStep k4, okStep k5, okStep k6, okStep k7] st).1.committed.words.filter
        fun w => w.category_id == st.nextId + 1 || w.category_id == st.nextId + 2)
      = [{ id := st.nextId + 3, category_id := st.nextId + 1, word := "Ma tahan",
            image_url := some k2 },
         { id := st.nextId + 4, category_id := st.nextId + 1, word := "Jah",
            image_url := some k3 },
         { id := st.nextId + 5, category_id := st.nextId + 1, word := "Ei",
            image_url := some k4 },
         { id := st.nextId + 6, category_id := st.nextId + 2, word := "mängima",
            image_url := some k5 },
         { id := st.nextId + 7, category_id := st.nextId + 2, word := "sööma",
            image_url := some k6 },
         { id := st.nextId + 8, category_id := st.nextId + 2, word := "magama",
            image_url := some k7 }] := by
  simp only [profilesOfUser] at hnop
  have hnp : ∀ p ∈ st.cur.profiles, (p.user_id == user) = false := by
    intro p hp
    by_contra h
    have hmem : p ∈ st.cur.profiles.filter fun q => q.user_id == user :=
      List.mem_filter.mpr ⟨hp, by revert h; cases p.user_id == user <;> simp⟩
    rw [hnop] at hmem
    exact absurd hmem (List.not_mem_nil p)
  have hanyP : ∀ y, (st.cur.profiles.any fun p => p.id == y && p.user_id == user) = false := by
    intro y
    rw [List.any_eq_false]
    intro p hp
    simp [hnp p hp]
  have hCold : ∀ x, (st.cur.categories.any fun c =>
      c.id == x && (st.nextId == c.profile_id && (user == user))) = false := by
    intro x
    rw [List.any_eq_false]
    intro c hcm
    simp only [Bool.and_eq_true, beq_iff_eq]
    rintro ⟨-, h, -⟩
    exact hfc c hcm h.symm
  have hfilc : (st.cur.categories.filter fun c => c.profile_id == st.nextId) = [] := by
    rw [List.filter_eq_nil_iff]
    intro c hcm
    simp only [beq_iff_eq]
    exact hfc c hcm
  have hfilw : (st.cur.words.filter fun w =>
      w.category_id == st.nextId + 1 || w.category_id == st.nextId + 2) = [] := by
    rw [List.filter_eq_nil_iff]
    intro w hwm
    simp only [Bool.or_eq_true, beq_iff_eq]
    rintro (h | h)
    · exact hw1 w hwm h
    · exact hw2 w hwm h
  have h21 : (st.nextId + 2 == st.nextId + 1) = false := by
    simp only [beq_eq_false_iff_ne]
    omega
  have h12 : (st.nextId + 1 == st.nextId + 2) = false := by
    simp only [beq_eq_false_iff_ne]
    omega
  have hTA : (("Tegevused" : String) == "Algused") = false := by decide
  have hn1 : st.nextId + 1 ≠ 0 := Nat.succ_ne_zero _
  have hn2 : st.nextId + 2 ≠ 0 := Nat.succ_ne_zero _
  refine ⟨?_, ?_, ?_, ?_⟩ <;>
    simp [UserService.authenticate_user, UserService.seed_initial_profile,
      ProfileService.seed_categories_and_image_words, categories_to_seed,
      words_to_seed, seedCats, seedWords, takeStep, okStep,
      CategoryService.create_category, ImageWordService.save,
      profileOwned, categoryOwned, profilesOfUser,
      St.uploadKey, St.commitTx, St.rollbackTx,
      hnop, hanyP, hCold, hfilc, hfilw, h21, h12, hTA, hn1, hn2,
      List.filter_append, List.lookup, Nat.add_assoc]

/-- C6 witness: user 0 logging in on a fresh system receives the default
profile with the full seed catalog (2 categories, 6 image-words). -/
theorem login_seeds_full_catalog_witness :
    profilesOfUser St.empty.cur 0 = [] ∧
    profilesOfUser
        (UserService.authenticate_user 0 true
          [okStep "a", okStep "b", okStep "c", okStep "d",
           okStep "e", okStep "f", okStep "g", okStep "h"] St.empty).1.committed 0
      = [{ id := 1, user_id := 0, name := "Vaikimisi" }] ∧
    ((UserService.authenticate_user 0 true
        [okStep "a", okStep "b", okStep "c", okStep "d",
         okStep "e", okStep "f", okStep "g", okStep "h"] St.empty).1.committed.categories.filter
        fun c => c.profile_id == 1).length = 2 ∧
    ((UserService.authenticate_user 0 true
        [okStep "a", okStep "b", okStep "c", okStep "d",
         okStep "e", okStep "f", okStep "g", okStep "h"] St.empty).1.committed.words.filter
        fun w => w.category_id == 2 || w.category_id == 3).length = 6 := by
  have h := login_seeds_full_catalog 0 St.empty "a" "b" "c" "d" "e" "f" "g" "h"
    (by decide) (by intro c hc; simp [St.empty] at hc) (by intro w hw; simp [St.empty] at hw)
    (by intro w hw; simp [St.empty] at hw)
  simp only [St.empty, Nat.reduceAdd] at h ⊢
  refine ⟨by decide, h.2.1, ?_, ?_⟩
  · rw [h.2.2.1]
    rfl
  · rw [h.2.2.2]
    rfl

theorem make_request_retry_facts (resp : Nat → Resp) (body : Nat → List Nat)
    (jitter : Nat → Nat) (attempt : Nat) (ds : List Nat)
    (h : TtsService.make_request resp body jitter attempt = MkRes.retry ds) :
    attempt ≤ 3 ∧ ds.length ≤ 2 := by
  unfold TtsService.make_request at h
  cases hres : resp attempt with
  | status code =>
    rw [hres] at h
    simp only [MAX_RETRIES] at h
    split_ifs at h with h1 h2 h3
    all_goals (cases h; exact ⟨by omega, by simp⟩)
  | netErr =>
    rw [hres] at h
    simp only [MAX_RETRIES] at h
    split_ifs at h with h1
    all_goals (cases h; exact ⟨by omega, by simp⟩)

theorem ttsGo_bounds (resp : Nat → Resp) (body : Nat → List Nat)
    (jitter : Nat → Nat) :
    ∀ (fuel attempt : Nat) (sleeps : List Nat), attempt + fuel = 5 →
      (ttsGo resp body jitter fuel attempt sleeps).attempts ≤ 5 ∧
      attempt ≤ (ttsGo resp body jitter fuel attempt sleeps).attempts ∧
      (1 ≤ fuel → attempt + 1 ≤ (ttsGo resp body jitter fuel attempt sleeps).attempts) ∧
      (ttsGo resp body jitter fuel attempt sleeps).sleeps.length
        ≤ sleeps.length + 2 * ((ttsGo resp body jitter fuel attempt sleeps).attempts - attempt - 1) := by
  intro fuel
  induction fuel with
  | zero =>
    intro attempt sleeps hsum
    simp [ttsGo]
    omega
  | succ n ih =>
    intro attempt sleeps hsum
    cases hreq : TtsService.make_request resp body jitter attempt with
    | ok b =>
      simp [ttsGo, hreq]
      omega
    | retry ds =>
      have hfacts := make_request_retry_facts resp body jitter attempt ds hreq
      have hrec := ih (attempt + 1) (sleeps ++ ds) (by omega)
      simp only [ttsGo, hreq]
      refine ⟨hrec.1, by omega, fun _ => by omega, ?_⟩
      have hlen := hrec.2.2.2
      rw [List.length_append] at hlen
      have hatt : attempt + 2 ≤ (ttsGo resp body jitter n (attempt + 1) (sleeps ++ ds)).attempts := by
        apply hrec.2.2.1
        omega
      omega
    | term o =>
      simp [ttsGo, hreq]
      omega

/-- C7: for every upstream behaviour, a logical `text_to_speech` call makes
at most 5 HTTP attempts; an upstream 400 on the first attempt yields the
terminal `badRequest` outcome after exactly one attempt (no retry); and a
503 on every attempt yields the terminal `unavailable` (service
unavailable) outcome after the 5 attempts are exhausted. -/
theorem tts_bounded_retry_classification (resp : Nat → Resp)
    (body : Nat → List Nat) (jitter : Nat → Nat) :
    (TtsService.text_to_speech resp body jitter).attempts ≤ 5 ∧
    (resp 0 = Resp.status 400 →
      TtsService.text_to_speech resp body jitter
        = ⟨TtsOutcome.badRequest, 1, []⟩) ∧
    ((∀ k, k < 5 → resp k = Resp.status 503) →
      (TtsService.text_to_speech resp body jitter).outcome = TtsOutcome.unavailable ∧
      (TtsService.text_to_speech resp body jitter).attempts = 5) := by
  refine ⟨?_, ?_, ?_⟩
  · exact (ttsGo_bounds resp body jitter MAX_RETRIES 0 [] rfl).1
  · intro h
    simp [TtsService.text_to_speech, MAX_RETRIES, ttsGo, TtsService.make_request, h]
  · intro h
    have h0 := h 0 (by omega)
    have h1 := h 1 (by omega)
    have h2 := h 2 (by omega)
    have h3 := h 3 (by omega)
    have h4 := h 4 (by omega)
    simp [TtsService.text_to_speech, MAX_RETRIES, ttsGo, TtsService.make_request,
      h0, h1, h2, h3, h4]

/-- C7 witness: an all-503 upstream is classified `unavailable` after
exactly 5 attempts, and an immediate 400 is terminal after one attempt. -/
theorem tts_bounded_retry_classification_witness :
    ((TtsService.text_to_speech resp503 body0 jitter0).outcome
        = TtsOutcome.unavailable ∧
     (TtsService.text_to_speech resp503 body0 jitter0).attempts = 5) ∧
    TtsService.text_to_speech resp400 body0 jitter0
      = ⟨TtsOutcome.badRequest, 1, []⟩ :=
  ⟨(tts_bounded_retry_classification resp503 body0 jitter0).2.2
      (fun _ _ => rfl),
   (tts_bounded_retry_classification resp400 body0 jitter0).2.1 rfl⟩

/-- C8 counterexample: with 429 on the first three attempts and then 200,
the caller does receive the audio bytes, but 6 backoff sleeps are observed,
not 2: each retried HTTP-status failure sleeps the delay twice, because the
internally raised retry exception is caught by the same function's
network-error handler, which sleeps the same delay again before
re-raising. -/
theorem tts_three_429_not_two_sleeps :
    (TtsService.text_to_speech resp429x3 body0 jitter0).outcome
      = TtsOutcome.success [1, 2] ∧
    (TtsService.text_to_speech resp429x3 body0 jitter0).sleeps.length = 6 ∧
    ¬ (TtsService.text_to_speech resp429x3 body0 jitter0).sleeps.length = 2 :=
  ⟨rfl, rfl, by decide⟩

/-- C8 (amended): the delay computed at attempt `k` is
`500ms × 2^k + jitter k` with the jitter draw in `[0, 500ms]`; sleeps
happen only in retry branches — never before the first attempt, and at most
two per non-final attempt (twice after a retried HTTP-status failure, once
after a retried network failure); and the 429-429-429-200 scenario returns
the payload after 4 attempts with exactly 6 backoff sleeps, pairwise equal
to the delays of attempts 0, 1 and 2. -/
theorem tts_backoff_delay_and_sleeps (resp : Nat → Resp)
    (body : Nat → List Nat) (jitter : Nat → Nat) :
    (∀ attempt, ttsDelay jitter attempt
        = BASE_DELAY_MS * 2 ^ attempt + jitter attempt) ∧
    ((∀ a, jitter a ≤ BASE_DELAY_MS) → ∀ a,
        BASE_DELAY_MS * 2 ^ a ≤ ttsDelay jitter a ∧
        ttsDelay jitter a ≤ BASE_DELAY_MS * 2 ^ a + BASE_DELAY_MS) ∧
    (TtsService.text_to_speech resp body jitter).sleeps.length
      ≤ 2 * ((TtsService.text_to_speech resp body jitter).attempts - 1) ∧
    ((TtsService.text_to_speech resp body jitter).attempts = 1 →
      (TtsService.text_to_speech resp body jitter).sleeps = []) ∧
    TtsService.text_to_speech resp429x3 body jitter
      = ⟨TtsOutcome.success (body 3), 4,
         [ttsDelay jitter 0, ttsDelay jitter 0, ttsDelay jitter 1,
          ttsDelay jitter 1, ttsDelay jitter 2, ttsDelay jitter 2]⟩ := by
  have hb := ttsGo_bounds resp body jitter MAX_RETRIES 0 [] rfl
  refine ⟨fun _ => rfl, ?_, ?_, ?_, ?_⟩
  · intro h a
    exact ⟨Nat.le_add_right _ _, Nat.add_le_add_left (h a) _⟩
  · have := hb.2.2.2
    simpa [TtsService.text_to_speech] using this
  · intro h1
    have := hb.2.2.2
    rw [show (ttsGo resp body jitter MAX_RETRIES 0 []) = TtsService.text_to_speech resp body jitter from rfl] at this
    rw [h1] at this
    simpa using List.length_eq_zero.mp (Nat.le_zero.mp (by simpa using this))
  · simp [TtsService.text_to_speech, MAX_RETRIES, ttsGo, TtsService.make_request,
      resp429x3]

/-- C8 witness: with a zero jitter draw, the scenario yields exactly the
doubled delays 500, 500, 1000, 1000, 2000, 2000 (ms) and the payload. -/
theorem tts_backoff_delay_and_sleeps_witness :
    (BASE_DELAY_MS * 2 ^ 0 ≤ ttsDelay jitter0 0 ∧
      ttsDelay jitter0 0 ≤ BASE_DELAY_MS * 2 ^ 0 + BASE_DELAY_MS) ∧
    TtsService.text_to_speech resp429x3 body0 jitter0
      = ⟨TtsOutcome.success (body0 3), 4,
         [ttsDelay jitter0 0, ttsDelay jitter0 0, ttsDelay jitter0 1,
          ttsDelay jitter0 1, ttsDelay jitter0 2, ttsDelay jitter0 2]⟩ :=
  ⟨(tts_backoff_delay_and_sleeps resp429x3 body0 jitter0).2.1
      (fun _ => Nat.zero_le _) 0,
   (tts_backoff_delay_and_sleeps resp429x3 body0 jitter0).2.2.2.2⟩

/-- C9 counterexample: on the cloud (R2) backend, deleting a key that does
not exist returns `true` when the backend call succeeds — not `false` as
claimed — because S3-style `delete_object` reports success regardless of
key existence and the code returns `true` whenever the call does not
raise. -/
theorem r2_delete_missing_key_returns_true :
    ("k" ∉ ([] : List String)) ∧
    (CloudflareR2Service.delete [] "k" true).2 = true ∧
    ¬ (CloudflareR2Service.delete [] "k" true).2 = false := by
  refine ⟨by decide, rfl, by decide⟩

/-- C9 (amended): both backends' `delete` are total (they catch backend
errors and report `false`; "not found" never raises).  The local backend
returns `false` when the key did not exist, `true` when a file was removed,
and is idempotent (for a duplicate-free store a second delete of the same
key returns `false`).  The R2 backend's result does not depend on key
existence: it is `true` exactly when the backend call succeeds. -/
theorem blob_delete_idempotent_total (store : List String) (key : String)
    (removeOk backendOk : Bool) :
    (key ∉ store → LocalStorageService.delete store key removeOk = (store, false)) ∧
    (key ∈ store → LocalStorageService.delete store key true = (store.erase key, true)) ∧
    (store.Nodup →
      (LocalStorageService.delete
        (LocalStorageService.delete store key true).1 key removeOk).2 = false) ∧
    (CloudflareR2Service.delete store key backendOk).2 = backendOk := by
  refine ⟨?_, ?_, ?_, ?_⟩
  · intro h
    simp [LocalStorageService.delete, h]
  · intro h
    simp [LocalStorageService.delete, h]
  · intro hnd
    by_cases h : key ∈ store
    · have hne : key ∉ store.erase key := by
        intro hmem
        rcases (List.Nodup.mem_erase_iff hnd).mp hmem with ⟨hne, -⟩
        exact hne rfl
      simp [LocalStorageService.delete, h, hne]
    · simp [LocalStorageService.delete, h]
  · cases backendOk <;> simp [CloudflareR2Service.delete]

/-- C9 witness: deleting `"a"` from a store holding only `"a"` succeeds and
empties it; deleting it again returns `false`; and a missing key returns
`false` on the local backend. -/
theorem blob_delete_idempotent_total_witness :
    ("a" ∉ ([] : List String) ∧
      LocalStorageService.delete [] "a" true = ([], false)) ∧
    ("a" ∈ ["a"] ∧
      LocalStorageService.delete ["a"] "a" true = ((["a"] : List String).erase "a", true)) ∧
    (["a"] : List String).Nodup ∧
    (LocalStorageService.delete (LocalStorageService.delete ["a"] "a" true).1 "a" true).2
      = false :=
  ⟨⟨by decide, (blob_delete_idempotent_total [] "a" true true).1 (by decide)⟩,
   ⟨by decide, (blob_delete_idempotent_total ["a"] "a" true true).2.1 (by decide)⟩,
   by decide,
   (blob_delete_idempotent_total ["a"] "a" true true).2.2.1 (by decide)⟩

/-- C10: `initiate_password_reset` returns `True` on every path — when no
user matches the email, when the token row is stored and committed, and
when the store or commit fails — so the returned value never distinguishes
existing from non-existing accounts. -/
theorem password_reset_always_true (users : List UserRow)
    (email token : String) (commitOk : Bool) (tokens : List (String × Nat)) :
    (UserService.initiate_password_reset users email token commitOk tokens).2
      = true := by
  unfold UserService.initiate_password_reset
  cases hfind : users.find? (fun u => u.email == email) with
  | none => rfl
  | some u => cases commitOk <;> simp
